import Mathlib

/-!
Verification of the AR pose-tracking and fusion pipeline of this repository.

The development shallowly embeds the pose fusion loop of `script.js`, the
marker detector of `js/marker_tracker.js` (both variants present in the file),
the visual-odometry core of `slam_core.js` and the pose smoothing of `pose.js`.

Numbers are modelled as rationals.  Calls into the OpenCV library
(optical flow, RANSAC homography, essential-matrix estimation, PnP) are
modelled as per-frame oracle inputs: the embedded functions reproduce the
repository's own control flow and arithmetic on top of those results.
`Math.sqrt` is passed in as an explicit function parameter `sqrtFn`; theorems
that depend on its numeric value hypothesise the defining properties of the
real square root at the radicands involved, and witnesses instantiate it with
`Rat.sqrt` at perfect-square inputs where those hypotheses hold exactly.
-/

namespace ARDemo

/-- A 3-vector, as the `{x, y, z}` objects used throughout `script.js`. -/
structure Vec3 where
  x : ℚ
  y : ℚ
  z : ℚ
deriving DecidableEq, Repr

/-- Euler angles as produced by `rotationMatrixToEuler` in `pose.js`. -/
structure Euler where
  yaw : ℚ
  pitch : ℚ
  roll : ℚ
deriving DecidableEq, Repr

/-- A row-major 3x3 matrix, as the flat 9-element arrays `r[0] .. r[8]`
used by `mat3MulVec3` / `mat3MulMat3` in `script.js`. -/
structure Mat3 where
  m0 : ℚ
  m1 : ℚ
  m2 : ℚ
  m3 : ℚ
  m4 : ℚ
  m5 : ℚ
  m6 : ℚ
  m7 : ℚ
  m8 : ℚ
deriving DecidableEq, Repr

/-- The identity rotation matrix. -/
def idMat3 : Mat3 := ⟨1, 0, 0, 0, 1, 0, 0, 0, 1⟩

/-- `mat3MulVec3` from `script.js` (lines 118-124). -/
def mat3MulVec3 (r : Mat3) (v : Vec3) : Vec3 :=
  { x := r.m0 * v.x + r.m1 * v.y + r.m2 * v.z
    y := r.m3 * v.x + r.m4 * v.y + r.m5 * v.z
    z := r.m6 * v.x + r.m7 * v.y + r.m8 * v.z }

/-- `mat3MulMat3` from `script.js` (lines 126-140). -/
def mat3MulMat3 (a : Mat3) (b : Mat3) : Mat3 :=
  { m0 := a.m0 * b.m0 + a.m1 * b.m3 + a.m2 * b.m6
    m1 := a.m0 * b.m1 + a.m1 * b.m4 + a.m2 * b.m7
    m2 := a.m0 * b.m2 + a.m1 * b.m5 + a.m2 * b.m8
    m3 := a.m3 * b.m0 + a.m4 * b.m3 + a.m5 * b.m6
    m4 := a.m3 * b.m1 + a.m4 * b.m4 + a.m5 * b.m7
    m5 := a.m3 * b.m2 + a.m4 * b.m5 + a.m5 * b.m8
    m6 := a.m6 * b.m0 + a.m7 * b.m3 + a.m8 * b.m6
    m7 := a.m6 * b.m1 + a.m7 * b.m4 + a.m8 * b.m7
    m8 := a.m6 * b.m2 + a.m7 * b.m5 + a.m8 * b.m8 }

/-- A pose as produced by `estimatePose` in `pose.js` and consumed by the
fusion loop in `script.js`: a position, Euler rotation, and (optionally, as
the fusion code checks for its presence) a numeric rotation matrix. -/
structure Pose where
  position : Vec3
  rotation : Euler
  rotationMatrix : Option Mat3
deriving DecidableEq, Repr

/-- The odometry delta consumed by the fusion code: `slamDelta.R` and the
translation array `slamDelta.t = [t0, t1, t2]`.  A `some` value corresponds
to a delta whose `R` and `t` fields are both non-null. -/
structure Delta where
  R : Mat3
  t0 : ℚ
  t1 : ℚ
  t2 : ℚ
deriving DecidableEq, Repr

/-- `poseJumpTooLarge` from `script.js` (lines 142-150).  `sqrtFn` stands for
`Math.sqrt`.  Null arguments are modelled as `none`. -/
def poseJumpTooLarge (sqrtFn : ℚ → ℚ) (prev next : Option Pose) : Bool :=
  match prev, next with
  | some prev, some next =>
    let dx := next.position.x - prev.position.x
    let dy := next.position.y - prev.position.y
    let dz := next.position.z - prev.position.z
    let dist := sqrtFn (dx * dx + dy * dy + dz * dz)
    dist > (1 / 4 : ℚ)
  | _, _ => false

/-- The mutable fusion state owned by the frame loop in `script.js`:
`lastStableMarkerPose`, `slamMetricScale`, `lastMarkerPoseForScale`,
`lastSlamDeltaForScale` and `latestPose`. -/
structure FusionState where
  lastStableMarkerPose : Option Pose
  slamMetricScale : ℚ
  lastMarkerPoseForScale : Option Pose
  lastSlamDeltaForScale : Option Delta
  latestPose : Option Pose
deriving DecidableEq, Repr

/-- The fusion state at startup (all poses null, scale `0.0`). -/
def initialFusionState : FusionState :=
  { lastStableMarkerPose := none
    slamMetricScale := 0
    lastMarkerPoseForScale := none
    lastSlamDeltaForScale := none
    latestPose := none }

/-- Per-frame input to the fusion section of the loop: whether a corner set
`cornersProc` was produced this frame, the pose solved from it by
`estimatePose` (when corners are present), and this frame's `slamDelta`. -/
structure FrameInput where
  corners : Bool
  pose : Option Pose
  slamDelta : Option Delta
deriving DecidableEq, Repr

/-- Result of one fusion step: the new state, the pose handed to
`renderer.setAnchorPose` (`none` models `setAnchorPose(null)`), and the pose
accepted this frame, if any (`some` exactly when the accept branch that logs
`[Marker] pose ok` ran). -/
structure FusionResult where
  state : FusionState
  anchor : Option Pose
  accepted : Option Pose
deriving DecidableEq, Repr

/-- The scale-learning update inside the accept branch of `script.js`
(lines 630-645): when both a `slamDelta` and a previously stored
`lastMarkerPoseForScale` exist, compare marker displacement with the odometry
translation norm and update the EMA. -/
def updatedScale (sqrtFn : ℚ → ℚ) (st : FusionState) (pose : Pose)
    (slamDelta : Option Delta) : ℚ :=
  match slamDelta, st.lastMarkerPoseForScale with
  | some d, some q =>
    let dx := pose.position.x - q.position.x
    let dy := pose.position.y - q.position.y
    let dz := pose.position.z - q.position.z
    let dMarker := sqrtFn (dx * dx + dy * dy + dz * dz)
    let dSlam := sqrtFn (d.t0 * d.t0 + d.t1 * d.t1 + d.t2 * d.t2)
    if dMarker > 1 / 10000 ∧ dSlam > 1 / 1000000 then
      if st.slamMetricScale > 0 then
        9 / 10 * st.slamMetricScale + 1 / 10 * (dMarker / dSlam)
      else dMarker / dSlam
    else st.slamMetricScale
  | _, _ => st.slamMetricScale

/-- The marker-occlusion propagation of `script.js` (lines 662-688): flip the
Y component of the odometry translation (matching the `pose.js` convention),
scale it (`0` when no scale has been learned), and apply the odometry rotation
to the last stable pose's position and rotation matrix. -/
def propagatedPose (st : FusionState) (lsp : Pose) (d : Delta) : Pose :=
  let dtPoseX := d.t0
  let dtPoseY := -d.t1
  let dtPoseZ := d.t2
  let scale := if st.slamMetricScale > 0 then st.slamMetricScale else 0
  let dtScaledX := dtPoseX * scale
  let dtScaledY := dtPoseY * scale
  let dtScaledZ := dtPoseZ * scale
  let p := mat3MulVec3 d.R lsp.position
  let newPos : Vec3 := ⟨p.x + dtScaledX, p.y + dtScaledY, p.z + dtScaledZ⟩
  let newRot : Option Mat3 :=
    match lsp.rotationMatrix with
    | some m => some (mat3MulMat3 d.R m)
    | none => none
  { lsp with
    position := newPos
    rotationMatrix :=
      match newRot with
      | some r => some r
      | none => lsp.rotationMatrix }

/-- One execution of the fusion section of the frame loop in `script.js`
(lines 611-693): accept or reject a solved pose against the jump guard, learn
the metric scale, and propagate through occlusion. -/
def fusionStep (sqrtFn : ℚ → ℚ) (st : FusionState) (inp : FrameInput) :
    FusionResult :=
  if inp.corners then
    match inp.pose with
    | some pose =>
      if poseJumpTooLarge sqrtFn st.lastStableMarkerPose (some pose) then
        -- `[Marker] pose rejected (jump too large)`
        { state := st, anchor := st.lastStableMarkerPose, accepted := none }
      else
        let scale1 := updatedScale sqrtFn st pose inp.slamDelta
        { state :=
            { lastStableMarkerPose := some pose
              slamMetricScale := scale1
              lastMarkerPoseForScale := some pose
              lastSlamDeltaForScale := inp.slamDelta
              latestPose := some pose }
          anchor := some pose
          accepted := some pose }
    | none =>
      -- solvePnP failed: keep the previous stable pose (or hide content)
      { state := st, anchor := st.lastStableMarkerPose, accepted := none }
  else
    match st.lastStableMarkerPose, inp.slamDelta with
    | some lsp, some d =>
      let newPose := propagatedPose st lsp d
      { state := { st with lastStableMarkerPose := some newPose }
        anchor := some newPose
        accepted := none }
    | _, _ =>
      { state := st, anchor := st.lastStableMarkerPose, accepted := none }

/-! ## Marker corner tracking state machine (`script.js`, lines 550-609) -/

/-- A 2D image point, as the `{x, y}` corner objects. -/
structure Vec2 where
  x : ℚ
  y : ℚ
deriving DecidableEq, Repr

/-- The marker tracking state of the frame loop: the `markerTracking` flag and
the tracked corner points `markerPrevPts` (held together with the
`markerPrevGray` buffer, which the code sets and clears in lockstep). -/
structure TrackerState where
  tracking : Bool
  prevPts : Option (List Vec2)
deriving DecidableEq, Repr

/-- The marker tracking state at startup (`Detecting`). -/
def initialTrackerState : TrackerState := { tracking := false, prevPts := none }

/-- Oracle result of `cv.calcOpticalFlowPyrLK` for this frame: the per-point
status bytes and the propagated point locations (one per input point). -/
structure FlowResult where
  status : List Bool
  pts : List Vec2
deriving DecidableEq, Repr

/-- Per-frame oracle inputs to the tracking section: the optical-flow result
(queried only while tracking) and the result of `markerTracker.detect(gray)`
(queried only when optical flow produced no corners). -/
structure TrackerInput where
  flow : FlowResult
  det : Option (List Vec2)
deriving DecidableEq, Repr

/-- Result of one tracking step: new state, the corner set `cornersProc`
produced for this frame (if any), and whether full `detect()` was invoked. -/
structure TrackerResult where
  state : TrackerState
  corners : Option (List Vec2)
  detectInvoked : Bool
deriving DecidableEq, Repr

/-- The optical-flow section of the marker tracking code in `script.js`
(lines 553-587): when tracking four previous points, all four must report
status 1 (and the status buffer must hold four rows), in which case the
propagated points become the corner set and the new tracked points; any
failure clears the tracking state and yields no corners. -/
def trackerFlowPhase (st : TrackerState) (inp : TrackerInput) :
    TrackerState × Option (List Vec2) :=
  match st.prevPts with
  | some pts =>
    if st.tracking ∧ pts.length = 4 then
      let ok := inp.flow.status.length = 4 ∧ inp.flow.status.all (fun s => s)
      if ok then
        (⟨true, some inp.flow.pts⟩, some (inp.flow.pts.take 4))
      else
        (⟨false, none⟩, none)
    else (st, none)
  | none => (st, none)

/-- The re-detection section of the marker tracking code in `script.js`
(lines 589-609), run only when optical flow produced no corners: on a
detection with exactly four corners, seed the tracking state; otherwise
leave the state as the flow phase left it. -/
def trackerDetectPhase (st : TrackerState) (det : Option (List Vec2)) :
    TrackerResult :=
  match det with
  | some detCorners =>
    if detCorners.length = 4 then
      { state := ⟨true, some detCorners⟩
        corners := some detCorners
        detectInvoked := true }
    else
      { state := st, corners := none, detectInvoked := true }
  | none =>
    { state := st, corners := none, detectInvoked := true }

/-- One execution of the marker tracking section of the frame loop in
`script.js` (lines 550-609): propagate the four corners by optical flow while
tracking, clear the state on any failed point, and fall back to full
detection when no corners were produced. -/
def trackerStep (st : TrackerState) (inp : TrackerInput) : TrackerResult :=
  let fp := trackerFlowPhase st inp
  match fp.2 with
  | some corners =>
    { state := fp.1, corners := some corners, detectInvoked := false }
  | none => trackerDetectPhase fp.1 inp.det

/-- Well-formedness of the tracking state: the `markerTracking` flag agrees
with the presence of stored points, and stored points come in sets of four. -/
def TrackerState.WF (st : TrackerState) : Prop :=
  st.tracking = st.prevPts.isSome ∧ ∀ pts ∈ st.prevPts, pts.length = 4

instance (st : TrackerState) : Decidable st.WF := by
  unfold TrackerState.WF; infer_instance

/-! ## Marker detection (`js/marker_tracker.js`)

The file holds two revisions of the `MarkerTracker` class.  The first
(lines 104-207), whose `loadTemplate` API the application loop in `script.js`
instantiates, ratio-tests knn matches; the second (lines 284-395) rank-filters
single matches and additionally counts RANSAC inliers.  Keypoint extraction,
matching and `cv.findHomography` are oracle inputs; each `detect` below
reproduces its revision's gating and corner projection on those results. -/

/-- One descriptor match (`cv.DMatch`): only its distance participates in the
modelled control flow (the matched indices feed only the homography oracle). -/
structure MatchInfo where
  distance : ℚ
deriving DecidableEq, Repr

/-- `cv.perspectiveTransform` of a single 2D point through a 3x3 homography. -/
def projectPoint (H : Mat3) (x y : ℚ) : Vec2 :=
  let X := H.m0 * x + H.m1 * y + H.m2
  let Y := H.m3 * x + H.m4 * y + H.m5
  let W := H.m6 * x + H.m7 * y + H.m8
  ⟨X / W, Y / W⟩

/-- Oracle inputs for one call of the first revision's `detect`
(lines 104-207): emptiness of the stored and frame descriptors, frame
keypoint count, the knn match lists, the `cv.findHomography` output (`none`
models a null, empty, or non-3x3 result) with its inlier mask, and the
template pixel size. -/
structure DetectInput1 where
  templateDescEmpty : Bool
  frameDescEmpty : Bool
  frameKpCount : ℕ
  knn : List (List MatchInfo)
  homography : Option Mat3
  inlierMask : List Bool
  templateW : ℚ
  templateH : ℚ
deriving Repr

/-- The Lowe ratio test of the first revision (lines 121-138): keep `m0` of
each knn pair with at least two entries when `m0.distance < 0.75 * m1.distance`. -/
def ratioTestGood (knn : List (List MatchInfo)) : List MatchInfo :=
  knn.filterMap fun m =>
    match m with
    | m0 :: m1 :: _ => if m0.distance < 3 / 4 * m1.distance then some m0 else none
    | _ => none

namespace MarkerTracker

/-- `MarkerTracker.detect` of the first revision (`js/marker_tracker.js`,
lines 104-207): gate on descriptors, ten frame keypoints, twelve ratio-test
matches, and a valid 3x3 homography, then project the template's four corners
(top-left, top-right, bottom-right, bottom-left) through it.  The RANSAC
inlier mask is created and discarded without being read. -/
def detect (inp : DetectInput1) : Option (List Vec2) :=
  if inp.templateDescEmpty then none
  else if inp.frameDescEmpty ∨ inp.frameKpCount < 10 then none
  else if (ratioTestGood inp.knn).length < 12 then none
  else
    match inp.homography with
    | none => none
    | some H =>
      some [projectPoint H 0 0, projectPoint H inp.templateW 0,
            projectPoint H inp.templateW inp.templateH,
            projectPoint H 0 inp.templateH]

end MarkerTracker

/-- Oracle inputs for one call of the second revision's `detect`
(lines 284-395): readiness, the one-channel frame check, descriptor
emptiness, frame keypoint count, the brute-force match list, the
`cv.findHomography` output with its inlier mask, the marker pixel size, and
the `maxMatches` / `goodMatchPercent` configuration. -/
structure DetectInput2 where
  ready : Bool
  oneChannel : Bool
  markerDescEmpty : Bool
  frameDescEmpty : Bool
  frameKpCount : ℕ
  matchList : List MatchInfo
  homography : Option Mat3
  inlierMask : List Bool
  markerW : ℚ
  markerH : ℚ
  maxMatches : ℕ
  goodMatchPercent : ℚ
deriving Repr

namespace MarkerTrackerV2

/-- The rank filter of the second revision (lines 317-334): sort the matches
by ascending distance and keep `max(12, min(maxMatches,
floor(n * goodMatchPercent)))` of them.  The kept correspondences are exactly
what the `cv.findHomography` oracle receives, so within the oracle model they
influence only that input. -/
def keptMatches (inp : DetectInput2) : List MatchInfo :=
  (inp.matchList.mergeSort (fun a b => a.distance ≤ b.distance)).take
    (max 12 (min inp.maxMatches
      (((inp.matchList.length : ℚ) * inp.goodMatchPercent).floor).toNat))

/-- `MarkerTracker.detect` of the second revision (`js/marker_tracker.js`,
lines 284-395): gate on readiness, a one-channel frame, descriptors, twenty
frame keypoints and twelve matches; rank-filter the matches (`keptMatches`)
into the homography oracle; require a non-empty homography and at least
twelve RANSAC inliers; then project the marker's four corners (top-left,
top-right, bottom-right, bottom-left). -/
def detect (inp : DetectInput2) : Option (List Vec2) :=
  if ¬ inp.ready then none
  else if ¬ inp.oneChannel then none
  else if inp.markerDescEmpty then none
  else if inp.frameDescEmpty ∨ inp.frameKpCount < 20 then none
  else if inp.matchList.length < 12 then none
  else
    match inp.homography with
    | none => none
    | some H =>
      if (inp.inlierMask.filter (fun b => b)).length < 12 then none
      else
        some [projectPoint H 0 0, projectPoint H inp.markerW 0,
              projectPoint H inp.markerW inp.markerH,
              projectPoint H 0 inp.markerH]

end MarkerTrackerV2

/-! ## Visual odometry core (`slam_core.js`)

Feature points live in flat `Float32` buffers (`data32F`), two entries per
point — the embedding keeps these buffers as flat lists of rationals, because
`processFrame` gates on the *flat length* of the surviving-track buffer. -/

/-- The per-index surviving-track collection loop of `SlamCore.processFrame`
(lines 57-68), for one of the two buffers: for every status byte equal to 1,
push the point's two coordinates.  Flat output, two entries per survivor. -/
def collectGood : List Bool → List ℚ → List ℚ
  | s :: status, x :: y :: rest =>
    if s then x :: y :: collectGood status rest else collectGood status rest
  | _, _ => []

/-- Element-wise matrix product, the semantics of `cv.Mat.mul` used by
`this.pose.R = R.mul(this.pose.R)` (line 132). -/
def matElemMul (a b : Mat3) : Mat3 :=
  ⟨a.m0 * b.m0, a.m1 * b.m1, a.m2 * b.m2,
   a.m3 * b.m3, a.m4 * b.m4, a.m5 * b.m5,
   a.m6 * b.m6, a.m7 * b.m7, a.m8 * b.m8⟩

/-- `SlamCore._addTrans` (lines 229-238): componentwise 3-vector sum. -/
def addTrans (t1 t2 : Vec3) : Vec3 := ⟨t1.x + t2.x, t1.y + t2.y, t1.z + t2.z⟩

/-- The state of `SlamCore`: the `initialized` flag, the cumulative pose
(`pose.R`, `pose.t`), and the previous tracked feature buffer (flat). -/
structure SlamState where
  initialized : Bool
  poseR : Mat3
  poseT : Vec3
  prevPointsFlat : List ℚ
deriving DecidableEq, Repr

/-- `SlamCore`'s state after its constructor: identity rotation, zero
translation, not yet initialized. -/
def initialSlamState : SlamState :=
  { initialized := false, poseR := idMat3, poseT := ⟨0, 0, 0⟩,
    prevPointsFlat := [] }

/-- Per-frame oracle inputs to `SlamCore.processFrame`: the
`goodFeaturesToTrack` output for (re)seeding (flat), the optical-flow status
bytes and propagated points (flat), which epipolar primitives the OpenCV
build exposes, whether the essential-matrix stage produced a non-null `E`
(directly or through the fundamental-matrix fallback), whether that fallback
conversion threw, and the `recoverPose` outcome (`none` models a throw, which
the code catches). -/
structure SlamInput where
  detected : List ℚ
  flowStatus : List Bool
  flowPtsFlat : List ℚ
  hasEssentialMat : Bool
  hasFundamentalMat : Bool
  essentialOk : Bool
  fallbackThrew : Bool
  recover : Option (Mat3 × Vec3)
deriving Repr

namespace SlamCore

/-- `SlamCore.processFrame` (`slam_core.js`, lines 28-227), with the
triangulated diagnostic cloud elided: first frame seeds features; afterwards
surviving tracks are collected into flat buffers and, when the `goodPrev`
buffer holds fewer than 16 entries, features are re-seeded and motion
estimation is skipped.  Otherwise the epipolar solve runs (the returned flag
is `true` exactly on that path): a missing capability throws, a fallback
conversion failure propagates, a caught `recoverPose` failure keeps the
previous pose, and success composes the cumulative pose (`cv.Mat.mul` is
element-wise) and re-seeds tracking from the surviving current points. -/
def processFrame (st : SlamState) (inp : SlamInput) :
    Except String (SlamState × Bool) :=
  if ¬ st.initialized then
    .ok ({ st with initialized := true, prevPointsFlat := inp.detected }, false)
  else
    let goodPrev := collectGood inp.flowStatus st.prevPointsFlat
    let goodCurr := collectGood inp.flowStatus inp.flowPtsFlat
    if goodPrev.length < 16 then
      .ok ({ st with prevPointsFlat := inp.detected }, false)
    else
      let eOutcome : Except String Bool :=
        if inp.hasEssentialMat then .ok inp.essentialOk
        else if inp.hasFundamentalMat then
          if inp.fallbackThrew then .error "Failed to compute E from F fallback"
          else .ok inp.essentialOk
        else .error "Neither cv.findEssentialMat nor cv.findFundamentalMat available in OpenCV.js build"
      match eOutcome with
      | .error msg => .error msg
      | .ok eFound =>
        if eFound then
          match inp.recover with
          | some (dR, dt) =>
            .ok ({ st with
                    poseR := matElemMul dR st.poseR
                    poseT := addTrans st.poseT dt
                    prevPointsFlat := goodCurr }, true)
          | none =>
            -- `recoverPose failed:` caught; keep previous pose
            .ok ({ st with prevPointsFlat := goodCurr }, true)
        else
          -- `Skipping pose recovery:` no essential matrix this frame
          .ok ({ st with prevPointsFlat := goodCurr }, true)

end SlamCore

/-! ## Pose smoothing (`pose.js`) -/

/-- `SMOOTHING` from `pose.js` (line 9). -/
def SMOOTHING : ℚ := 85 / 100

/-- `smoothValue` from `pose.js` (lines 11-13). -/
def smoothValue (prev next : ℚ) : ℚ :=
  prev * SMOOTHING + next * (1 - SMOOTHING)

/-- The smoothing stage of `estimatePose` (`pose.js`, lines 173-194): the
freshly solved pose passes through unchanged when `lastPose` is null, and is
otherwise blended against it componentwise on position x/y/z and each Euler
angle (the rotation matrix is kept raw). -/
def applySmoothing (lastPose : Option Pose) (raw : Pose) : Pose :=
  match lastPose with
  | none => raw
  | some lp =>
    { raw with
      position :=
        ⟨smoothValue lp.position.x raw.position.x,
         smoothValue lp.position.y raw.position.y,
         smoothValue lp.position.z raw.position.z⟩
      rotation :=
        ⟨smoothValue lp.rotation.yaw raw.rotation.yaw,
         smoothValue lp.rotation.pitch raw.rotation.pitch,
         smoothValue lp.rotation.roll raw.rotation.roll⟩ }

/-- Feeding the same raw pose repeatedly: `lastPose` after each solve is the
smoothed pose, so `n` solves of the constant pose `raw` starting from state
`start` iterate the update. -/
def smoothIter (raw : Pose) : ℕ → Pose → Pose
  | 0, start => start
  | n + 1, start => applySmoothing (some (smoothIter raw n start)) raw

/-! ## Derived quantities and concrete instances used by the theorems -/

/-- The squared Euclidean distance between two poses' positions: the radicand
of the `Math.sqrt` call in `poseJumpTooLarge(prev, next)` and of the marker
displacement in the scale-learning block (`prev` playing the role of the
stored reference pose there). -/
def jumpDist2 (prev next : Pose) : ℚ :=
  (next.position.x - prev.position.x) * (next.position.x - prev.position.x) +
  (next.position.y - prev.position.y) * (next.position.y - prev.position.y) +
  (next.position.z - prev.position.z) * (next.position.z - prev.position.z)

/-- The squared norm of an odometry delta's translation: the radicand of the
`Math.sqrt` call computing `dSlam` in the scale-learning block. -/
def deltaNorm2 (d : Delta) : ℚ :=
  d.t0 * d.t0 + d.t1 * d.t1 + d.t2 * d.t2

/-- Whether a `processFrame` call returned normally. -/
def slamOk (r : Except String (SlamState × Bool)) : Bool :=
  match r with
  | .ok _ => true
  | .error _ => false

/-- Whether a `processFrame` call reached the epipolar motion-estimation
stage (as opposed to skipping it on the first frame or for lack of tracks). -/
def slamAttempted (r : Except String (SlamState × Bool)) : Bool :=
  match r with
  | .ok (_, b) => b
  | .error _ => false

/-- A pose at the origin with the identity rotation matrix. -/
def originPose : Pose := ⟨⟨0, 0, 0⟩, ⟨0, 0, 0⟩, some idMat3⟩

/-- Fusion state for the C1 scenario: last stable pose at the origin with
identity rotation and a learned scale of `0.5`. -/
def c1State : FusionState :=
  { lastStableMarkerPose := some originPose
    slamMetricScale := 1 / 2
    lastMarkerPoseForScale := none
    lastSlamDeltaForScale := none
    latestPose := none }

/-- Frame input for the C1 scenario: marker not detected, odometry delta with
identity rotation and translation-direction `(0, 1, 0)`. -/
def c1Input : FrameInput :=
  { corners := false, pose := none, slamDelta := some ⟨idMat3, 0, 1, 0⟩ }

/-- Fusion state for the C2 scenario: last stable pose at `(0.1, 0.2, 0.3)`
with identity rotation, no learned scale. -/
def c2State : FusionState :=
  { lastStableMarkerPose := some ⟨⟨1/10, 2/10, 3/10⟩, ⟨0, 0, 0⟩, some idMat3⟩
    slamMetricScale := 0
    lastMarkerPoseForScale := none
    lastSlamDeltaForScale := none
    latestPose := none }

/-- Frame input for the C2 scenario: marker not detected, odometry delta
rotating about the Z axis by 90 degrees with zero translation. -/
def c2Input : FrameInput :=
  { corners := false, pose := none
    slamDelta := some ⟨⟨0, -1, 0, 1, 0, 0, 0, 0, 1⟩, 0, 0, 0⟩ }

/-- Accepted marker pose of frame 3 of the C3 trace. -/
def c3Pose3 : Pose := ⟨⟨1/10, 0, 0⟩, ⟨0, 0, 0⟩, some idMat3⟩

/-- Odometry delta of frame 3 of the C3 trace: identity rotation, translation
of norm `0.05`. -/
def c3Delta : Delta := ⟨idMat3, 1/20, 0, 0⟩

/-- Frame 1 of the C3 trace: marker accepted at the origin, no odometry. -/
def c3r1 : FusionResult :=
  fusionStep Rat.sqrt initialFusionState ⟨true, some originPose, none⟩

/-- Frame 2 of the C3 trace: marker not detected, no odometry delta. -/
def c3r2 : FusionResult := fusionStep Rat.sqrt c3r1.state ⟨false, none, none⟩

/-- Frame 3 of the C3 trace: marker re-accepted at `(0.1, 0, 0)` together
with an odometry delta of norm `0.05`. -/
def c3r3 : FusionResult :=
  fusionStep Rat.sqrt c3r2.state ⟨true, some c3Pose3, some c3Delta⟩

/-- The accepted marker pose of the C3/C5 witness frames: `(0.3, 0, 0)`. -/
def c3wPose : Pose := ⟨⟨3/10, 0, 0⟩, ⟨0, 0, 0⟩, some idMat3⟩

/-- Fusion state for the C3 witness: a learned scale of `2.0` and reference
poses at `(0.1, 0, 0)`. -/
def c3wState : FusionState :=
  { lastStableMarkerPose := some c3Pose3
    slamMetricScale := 2
    lastMarkerPoseForScale := some c3Pose3
    lastSlamDeltaForScale := some c3Delta
    latestPose := some c3Pose3 }

/-- Frame input for the C3 witness: marker accepted at `(0.3, 0, 0)` —
displacement `0.2` from the reference — with an odometry delta of norm
`0.05`, so the raw ratio is `4.0`. -/
def c3wInput : FrameInput :=
  { corners := true, pose := some c3wPose, slamDelta := some c3Delta }

/-- Tracking state for the C6 witness: tracking four corner points. -/
def c6State : TrackerState :=
  { tracking := true
    prevPts := some [⟨0, 0⟩, ⟨1, 0⟩, ⟨1, 1⟩, ⟨0, 1⟩] }

/-- Frame input for the C6 witness: all four corners track successfully and
the detector would also fire (it must not be consulted). -/
def c6Input : TrackerInput :=
  { flow := { status := [true, true, true, true]
              pts := [⟨0, 1/10⟩, ⟨1, 1/10⟩, ⟨1, 11/10⟩, ⟨0, 11/10⟩] }
    det := some [⟨5, 5⟩, ⟨6, 5⟩, ⟨6, 6⟩, ⟨5, 6⟩] }

/-- Oracle input on which the first revision's `detect` succeeds although the
RANSAC inlier mask marks no inliers at all: twelve knn pairs passing the
ratio test, a valid homography, and an all-false mask. -/
def c7Input : DetectInput1 :=
  { templateDescEmpty := false
    frameDescEmpty := false
    frameKpCount := 10
    knn := [[⟨1⟩, ⟨2⟩], [⟨1⟩, ⟨2⟩], [⟨1⟩, ⟨2⟩], [⟨1⟩, ⟨2⟩],
            [⟨1⟩, ⟨2⟩], [⟨1⟩, ⟨2⟩], [⟨1⟩, ⟨2⟩], [⟨1⟩, ⟨2⟩],
            [⟨1⟩, ⟨2⟩], [⟨1⟩, ⟨2⟩], [⟨1⟩, ⟨2⟩], [⟨1⟩, ⟨2⟩]]
    homography := some idMat3
    inlierMask := [false, false, false, false, false, false,
                   false, false, false, false, false, false]
    templateW := 2
    templateH := 3 }

/-- Oracle input on which the second revision's `detect` succeeds: twelve
matches, a valid homography and twelve inliers. -/
def c7Input2 : DetectInput2 :=
  { ready := true
    oneChannel := true
    markerDescEmpty := false
    frameDescEmpty := false
    frameKpCount := 20
    matchList := [⟨1⟩, ⟨1⟩, ⟨1⟩, ⟨1⟩, ⟨1⟩, ⟨1⟩, ⟨1⟩, ⟨1⟩, ⟨1⟩, ⟨1⟩, ⟨1⟩, ⟨1⟩]
    homography := some idMat3
    inlierMask := [true, true, true, true, true, true,
                   true, true, true, true, true, true]
    markerW := 4
    markerH := 4
    maxMatches := 60
    goodMatchPercent := 1 / 4 }

/-- SLAM state for the C8 counterexample: initialized, with ten tracked
feature points (twenty flat buffer entries). -/
def c8State : SlamState :=
  { initialized := true
    poseR := idMat3
    poseT := ⟨0, 0, 0⟩
    prevPointsFlat := (List.range 20).map (fun n => (n : ℚ)) }

/-- Frame input for the C8 counterexample: all ten tracks survive optical
flow, and every epipolar primitive behaves. -/
def c8Input : SlamInput :=
  { detected := [5, 5]
    flowStatus := List.replicate 10 true
    flowPtsFlat := (List.range 20).map (fun n => (n : ℚ) + 1)
    hasEssentialMat := true
    hasFundamentalMat := false
    essentialOk := true
    fallbackThrew := false
    recover := some (idMat3, ⟨0, 0, 0⟩) }

/-- SLAM state for the C8 witness: initialized, with seven tracked feature
points (fourteen flat buffer entries). -/
def c8wState : SlamState :=
  { initialized := true
    poseR := idMat3
    poseT := ⟨0, 0, 0⟩
    prevPointsFlat := (List.range 14).map (fun n => (n : ℚ)) }

/-- Frame input for the C8 witness: all seven tracks survive — fewer than
eight correspondences, so motion estimation must be skipped. -/
def c8wInput : SlamInput :=
  { detected := [7, 8, 9, 10]
    flowStatus := List.replicate 7 true
    flowPtsFlat := (List.range 14).map (fun n => (n : ℚ) + 1)
    hasEssentialMat := true
    hasFundamentalMat := false
    essentialOk := true
    fallbackThrew := false
    recover := some (idMat3, ⟨0, 0, 0⟩) }

/-! ## Theorems -/

/-- Comparison of nonnegative rationals transfers to their squares. -/
theorem lt_iff_mul_self_lt (c s : ℚ) (hc : 0 ≤ c) (hs : 0 ≤ s) :
    c < s ↔ c * c < s * s := by
  constructor
  · intro h; nlinarith
  · intro h
    by_contra hle
    push_neg at hle
    nlinarith

/-- `Rat.sqrt` is exact on squares of nonnegative rationals. -/
theorem rat_sqrt_of_sq (q x : ℚ) (hx : 0 ≤ x) (h : x * x = q) :
    Rat.sqrt q = x := by
  rw [← h, Rat.sqrt_eq, abs_of_nonneg hx]

/-- `poseJumpTooLarge` on two non-null poses compares `sqrtFn` of the squared
distance against `0.25`. -/
theorem poseJumpTooLarge_eq (sqrtFn : ℚ → ℚ) (a b : Pose) :
    poseJumpTooLarge sqrtFn (some a) (some b) =
      decide ((1 : ℚ) / 4 < sqrtFn (jumpDist2 a b)) := rfl

/-- Claim C4: for every pair of poses, `poseJumpTooLarge(prev, next)` returns
true if and only if the Euclidean distance between their positions exceeds
0.25 m (equivalently, the squared distance exceeds 0.25²); the boundary at
exactly 0.25 m is exclusive, and the result is symmetric in its arguments.
The hypotheses state that `sqrtFn` behaves as the real square root at the
radicand involved. -/
theorem poseJumpTooLarge_iff_dist_gt (sqrtFn : ℚ → ℚ) (prev next : Pose)
    (hnn : 0 ≤ sqrtFn (jumpDist2 prev next))
    (hsq : sqrtFn (jumpDist2 prev next) * sqrtFn (jumpDist2 prev next) =
      jumpDist2 prev next) :
    (poseJumpTooLarge sqrtFn (some prev) (some next) = true ↔
      1 / 4 * (1 / 4) < jumpDist2 prev next)
    ∧ poseJumpTooLarge sqrtFn (some prev) (some next) =
        poseJumpTooLarge sqrtFn (some next) (some prev)
    ∧ (jumpDist2 prev next = 1 / 4 * (1 / 4) →
        poseJumpTooLarge sqrtFn (some prev) (some next) = false) := by
  have hsymm : jumpDist2 prev next = jumpDist2 next prev := by
    unfold jumpDist2; ring
  have key : ((1 : ℚ) / 4 < sqrtFn (jumpDist2 prev next)) ↔
      1 / 4 * (1 / 4) < jumpDist2 prev next := by
    conv_rhs => rw [← hsq]
    exact lt_iff_mul_self_lt (1 / 4) (sqrtFn (jumpDist2 prev next))
      (by norm_num) hnn
  refine ⟨?_, ?_, ?_⟩
  · rw [poseJumpTooLarge_eq, decide_eq_true_eq]
    exact key
  · rw [poseJumpTooLarge_eq, poseJumpTooLarge_eq, hsymm]
  · intro hb
    rw [poseJumpTooLarge_eq, decide_eq_false_iff_not]
    rw [key, hb]
    exact lt_irrefl _

/-- Witness for C4 at a concrete boundary input: poses exactly 0.25 m apart
(squared distance 1/16, whose rational square root is exact) are not flagged
as a jump, and the guard is symmetric there. -/
theorem poseJumpTooLarge_iff_dist_gt_witness :
    (0 ≤ Rat.sqrt (jumpDist2 originPose ⟨⟨1/4, 0, 0⟩, ⟨0, 0, 0⟩, none⟩) ∧
     Rat.sqrt (jumpDist2 originPose ⟨⟨1/4, 0, 0⟩, ⟨0, 0, 0⟩, none⟩) *
       Rat.sqrt (jumpDist2 originPose ⟨⟨1/4, 0, 0⟩, ⟨0, 0, 0⟩, none⟩) =
       jumpDist2 originPose ⟨⟨1/4, 0, 0⟩, ⟨0, 0, 0⟩, none⟩)
    ∧ poseJumpTooLarge Rat.sqrt (some originPose)
        (some ⟨⟨1/4, 0, 0⟩, ⟨0, 0, 0⟩, none⟩) = false := by
  have hd : jumpDist2 originPose ⟨⟨1/4, 0, 0⟩, ⟨0, 0, 0⟩, none⟩ = 1/16 := by
    norm_num [jumpDist2, originPose]
  have hs : Rat.sqrt (jumpDist2 originPose ⟨⟨1/4, 0, 0⟩, ⟨0, 0, 0⟩, none⟩) =
      1/4 := by
    rw [hd]
    exact rat_sqrt_of_sq _ _ (by norm_num) (by norm_num)
  have hnn : 0 ≤ Rat.sqrt (jumpDist2 originPose ⟨⟨1/4, 0, 0⟩, ⟨0, 0, 0⟩, none⟩) := by
    rw [hs]; norm_num
  have hsq : Rat.sqrt (jumpDist2 originPose ⟨⟨1/4, 0, 0⟩, ⟨0, 0, 0⟩, none⟩) *
      Rat.sqrt (jumpDist2 originPose ⟨⟨1/4, 0, 0⟩, ⟨0, 0, 0⟩, none⟩) =
      jumpDist2 originPose ⟨⟨1/4, 0, 0⟩, ⟨0, 0, 0⟩, none⟩ := by
    rw [hs, hd]; norm_num
  exact ⟨⟨hnn, hsq⟩, (poseJumpTooLarge_iff_dist_gt Rat.sqrt originPose
    ⟨⟨1/4, 0, 0⟩, ⟨0, 0, 0⟩, none⟩ hnn hsq).2.2 (by rw [hd]; norm_num)⟩

/-- Claim C10: `poseJumpTooLarge` returns false whenever either argument is
null, and consequently the first pose ever solved — when no last-accepted
marker pose exists — is accepted: it becomes the last-accepted marker pose
and the anchor pose. -/
theorem first_pose_always_accepted :
    (∀ (sqrtFn : ℚ → ℚ) (p : Option Pose),
      poseJumpTooLarge sqrtFn none p = false ∧
      poseJumpTooLarge sqrtFn p none = false)
    ∧ ∀ (sqrtFn : ℚ → ℚ) (st : FusionState) (inp : FrameInput) (p : Pose),
        st.lastStableMarkerPose = none → inp.corners = true →
        inp.pose = some p →
        (fusionStep sqrtFn st inp).accepted = some p ∧
        (fusionStep sqrtFn st inp).state.lastStableMarkerPose = some p ∧
        (fusionStep sqrtFn st inp).anchor = some p := by
  constructor
  · intro sqrtFn p
    cases p <;> simp [poseJumpTooLarge]
  · intro sqrtFn st inp p hst hc hp
    simp [fusionStep, hc, hp, hst, poseJumpTooLarge]

/-- Witness for C10: on the very first frame (initial state, no prior marker
pose) a solved pose at the origin is accepted. -/
theorem first_pose_always_accepted_witness :
    (initialFusionState.lastStableMarkerPose = none ∧
     (⟨true, some originPose, none⟩ : FrameInput).corners = true ∧
     (⟨true, some originPose, none⟩ : FrameInput).pose = some originPose)
    ∧ (fusionStep Rat.sqrt initialFusionState
        ⟨true, some originPose, none⟩).accepted = some originPose ∧
      (fusionStep Rat.sqrt initialFusionState
        ⟨true, some originPose, none⟩).state.lastStableMarkerPose =
        some originPose ∧
      (fusionStep Rat.sqrt initialFusionState
        ⟨true, some originPose, none⟩).anchor = some originPose :=
  ⟨⟨rfl, rfl, rfl⟩,
   first_pose_always_accepted.2 Rat.sqrt initialFusionState
     ⟨true, some originPose, none⟩ originPose rfl rfl rfl⟩

/-- Claim C9: every solved pose is smoothed componentwise (position x/y/z and
each Euler angle independently) against the previous accepted pose by
`next = 0.85·prev + 0.15·raw`; the very first solved pose (null `lastPose`)
passes through unsmoothed; a constant pose is a fixed point of the update;
and under a constant input stream the componentwise error decays as
`0.85^n`, so the smoothed output converges to the constant pose. -/
theorem smoothing_componentwise_spec :
    (∀ prev next : ℚ, smoothValue prev next = 85/100 * prev + 15/100 * next)
    ∧ (∀ lp raw : Pose,
        (applySmoothing (some lp) raw).position.x =
          85/100 * lp.position.x + 15/100 * raw.position.x ∧
        (applySmoothing (some lp) raw).position.y =
          85/100 * lp.position.y + 15/100 * raw.position.y ∧
        (applySmoothing (some lp) raw).position.z =
          85/100 * lp.position.z + 15/100 * raw.position.z ∧
        (applySmoothing (some lp) raw).rotation.yaw =
          85/100 * lp.rotation.yaw + 15/100 * raw.rotation.yaw ∧
        (applySmoothing (some lp) raw).rotation.pitch =
          85/100 * lp.rotation.pitch + 15/100 * raw.rotation.pitch ∧
        (applySmoothing (some lp) raw).rotation.roll =
          85/100 * lp.rotation.roll + 15/100 * raw.rotation.roll ∧
        (applySmoothing (some lp) raw).rotationMatrix = raw.rotationMatrix)
    ∧ (∀ raw : Pose, applySmoothing none raw = raw)
    ∧ (∀ p : Pose, applySmoothing (some p) p = p)
    ∧ (∀ (raw start : Pose) (n : ℕ),
        (smoothIter raw n start).position.x - raw.position.x =
          (85/100)^n * (start.position.x - raw.position.x) ∧
        (smoothIter raw n start).position.y - raw.position.y =
          (85/100)^n * (start.position.y - raw.position.y) ∧
        (smoothIter raw n start).position.z - raw.position.z =
          (85/100)^n * (start.position.z - raw.position.z) ∧
        (smoothIter raw n start).rotation.yaw - raw.rotation.yaw =
          (85/100)^n * (start.rotation.yaw - raw.rotation.yaw) ∧
        (smoothIter raw n start).rotation.pitch - raw.rotation.pitch =
          (85/100)^n * (start.rotation.pitch - raw.rotation.pitch) ∧
        (smoothIter raw n start).rotation.roll - raw.rotation.roll =
          (85/100)^n * (start.rotation.roll - raw.rotation.roll)) := by
  refine ⟨?_, ?_, ?_, ?_, ?_⟩
  · intro prev next
    unfold smoothValue SMOOTHING
    ring
  · intro lp raw
    refine ⟨?_, ?_, ?_, ?_, ?_, ?_, rfl⟩ <;>
      · simp only [applySmoothing, smoothValue, SMOOTHING]
        ring
  · intro raw
    rfl
  · intro p
    cases p with
    | mk pos rot rm =>
      cases pos
      cases rot
      simp only [applySmoothing, smoothValue, SMOOTHING, Pose.mk.injEq,
        Vec3.mk.injEq, Euler.mk.injEq]
      repeat' apply And.intro
      all_goals first | trivial | ring
  · intro raw start n
    induction n with
    | zero => simp [smoothIter]
    | succ n ih =>
      obtain ⟨hx, hy, hz, hyaw, hpitch, hroll⟩ := ih
      have hstep : smoothIter raw (n + 1) start =
          applySmoothing (some (smoothIter raw n start)) raw := rfl
      rw [hstep]
      simp only [applySmoothing, smoothValue, SMOOTHING]
      refine ⟨?_, ?_, ?_, ?_, ?_, ?_⟩
      · linear_combination (85 / 100 : ℚ) * hx
      · linear_combination (85 / 100 : ℚ) * hy
      · linear_combination (85 / 100 : ℚ) * hz
      · linear_combination (85 / 100 : ℚ) * hyaw
      · linear_combination (85 / 100 : ℚ) * hpitch
      · linear_combination (85 / 100 : ℚ) * hroll

/-- The occlusion branch of the fusion step: with no corners this frame but a
stable pose and a delta, the anchor and the stored stable pose both become the
propagated pose and nothing is accepted. -/
theorem fusionStep_propagate (sqrtFn : ℚ → ℚ) (st : FusionState)
    (inp : FrameInput) (lsp : Pose) (d : Delta)
    (hc : inp.corners = false) (hl : st.lastStableMarkerPose = some lsp)
    (hd : inp.slamDelta = some d) :
    fusionStep sqrtFn st inp =
      { state := { st with lastStableMarkerPose := some (propagatedPose st lsp d) }
        anchor := some (propagatedPose st lsp d)
        accepted := none } := by
  simp [fusionStep, hc, hl, hd]

/-- Counterexample to claim C1 as stated: with the last stable pose at the
origin with identity rotation, a delta with identity rotation and
translation-direction (0, 1, 0), and a learned scale of 0.5, the fused anchor
position is (0, -0.5, 0) — the code negates the Y component of the odometry
translation before scaling — not (0, 0.5, 0). -/
theorem anchor_propagation_cex :
    ((fusionStep Rat.sqrt c1State c1Input).anchor.map fun p => p.position) =
      some ⟨0, -(1/2), 0⟩ ∧
    some (⟨0, -(1/2), 0⟩ : Vec3) ≠ some ⟨0, 1/2, 0⟩ := by
  refine ⟨?_, ?_⟩
  · rw [fusionStep_propagate Rat.sqrt c1State c1Input originPose
      ⟨idMat3, 0, 1, 0⟩ rfl rfl rfl]
    show some (propagatedPose c1State originPose ⟨idMat3, 0, 1, 0⟩).position = _
    norm_num [propagatedPose, mat3MulVec3, originPose, idMat3, c1State,
      Vec3.mk.injEq]
  · intro h
    rw [Option.some.injEq] at h
    have hy : (-(1/2) : ℚ) = 1/2 := congrArg Vec3.y h
    norm_num at hy

/-- Claim C1 (amended): for every frame in which the marker was not detected
(no corner set) but a last stable marker pose, an odometry delta (R, t), and
the fusion state exist, the new anchor is the propagated pose with
`newPosition = R·oldPosition + s·t′` where `t′ = (t0, -t1, t2)` is the delta
translation with its Y component negated (the pose-convention Y-flip) and `s`
is the learned scale, with `s = 0` (rotation only, no translation) when no
scale has been learned, and `newRotation = R·oldRotation`. -/
theorem anchor_propagation_amended (sqrtFn : ℚ → ℚ) (st : FusionState)
    (inp : FrameInput) (lsp : Pose) (d : Delta)
    (hc : inp.corners = false) (hl : st.lastStableMarkerPose = some lsp)
    (hd : inp.slamDelta = some d) :
    (fusionStep sqrtFn st inp).anchor = some (propagatedPose st lsp d) ∧
    (propagatedPose st lsp d).position =
      ⟨(mat3MulVec3 d.R lsp.position).x +
         d.t0 * (if st.slamMetricScale > 0 then st.slamMetricScale else 0),
       (mat3MulVec3 d.R lsp.position).y +
         (-d.t1) * (if st.slamMetricScale > 0 then st.slamMetricScale else 0),
       (mat3MulVec3 d.R lsp.position).z +
         d.t2 * (if st.slamMetricScale > 0 then st.slamMetricScale else 0)⟩ ∧
    (∀ m, lsp.rotationMatrix = some m →
      (propagatedPose st lsp d).rotationMatrix = some (mat3MulMat3 d.R m)) ∧
    (st.slamMetricScale = 0 →
      (propagatedPose st lsp d).position = mat3MulVec3 d.R lsp.position) := by
  refine ⟨?_, ?_, ?_, ?_⟩
  · rw [fusionStep_propagate sqrtFn st inp lsp d hc hl hd]
  · rfl
  · intro m hm
    simp [propagatedPose, hm]
  · intro h0
    have hsc : (if st.slamMetricScale > 0 then st.slamMetricScale else 0) =
        0 := by
      rw [h0]
      simp
    show (⟨(mat3MulVec3 d.R lsp.position).x + d.t0 *
        (if st.slamMetricScale > 0 then st.slamMetricScale else 0),
      (mat3MulVec3 d.R lsp.position).y + (-d.t1) *
        (if st.slamMetricScale > 0 then st.slamMetricScale else 0),
      (mat3MulVec3 d.R lsp.position).z + d.t2 *
        (if st.slamMetricScale > 0 then st.slamMetricScale else 0)⟩ : Vec3) =
      mat3MulVec3 d.R lsp.position
    rw [hsc]
    cases hv : mat3MulVec3 d.R lsp.position with
    | mk a b c =>
      simp [Vec3.mk.injEq]

/-- Witness for the amended C1 at the concrete inputs of the counterexample
scenario (origin pose, identity delta rotation, translation (0,1,0), learned
scale 0.5). -/
theorem anchor_propagation_amended_witness :
    (c1Input.corners = false ∧
     c1State.lastStableMarkerPose = some originPose ∧
     c1Input.slamDelta = some ⟨idMat3, 0, 1, 0⟩) ∧
    ((fusionStep Rat.sqrt c1State c1Input).anchor =
       some (propagatedPose c1State originPose ⟨idMat3, 0, 1, 0⟩) ∧
     (propagatedPose c1State originPose ⟨idMat3, 0, 1, 0⟩).position =
       ⟨(mat3MulVec3 idMat3 originPose.position).x +
          0 * (if c1State.slamMetricScale > 0 then c1State.slamMetricScale else 0),
        (mat3MulVec3 idMat3 originPose.position).y +
          (-1) * (if c1State.slamMetricScale > 0 then c1State.slamMetricScale else 0),
        (mat3MulVec3 idMat3 originPose.position).z +
          0 * (if c1State.slamMetricScale > 0 then c1State.slamMetricScale else 0)⟩ ∧
     (∀ m, originPose.rotationMatrix = some m →
       (propagatedPose c1State originPose ⟨idMat3, 0, 1, 0⟩).rotationMatrix =
         some (mat3MulMat3 idMat3 m)) ∧
     (c1State.slamMetricScale = 0 →
       (propagatedPose c1State originPose ⟨idMat3, 0, 1, 0⟩).position =
         mat3MulVec3 idMat3 originPose.position)) := by
  refine ⟨⟨rfl, rfl, rfl⟩, ?_⟩
  have h := anchor_propagation_amended Rat.sqrt c1State c1Input originPose
    ⟨idMat3, 0, 1, 0⟩ rfl rfl rfl
  simpa using h

/-- Counterexample to claim C2 as stated: a propagation step through marker
occlusion does not leave the stored last-stable marker pose unchanged — with
a stable pose at (0.1, 0.2, 0.3) and a delta rotating 90° about Z, the stored
pose after the step differs from the stored pose before it. -/
theorem lastStable_overwritten_cex :
    (fusionStep Rat.sqrt c2State c2Input).state.lastStableMarkerPose ≠
      c2State.lastStableMarkerPose := by
  rw [fusionStep_propagate Rat.sqrt c2State c2Input
    ⟨⟨1/10, 2/10, 3/10⟩, ⟨0, 0, 0⟩, some idMat3⟩
    ⟨⟨0, -1, 0, 1, 0, 0, 0, 0, 1⟩, 0, 0, 0⟩ rfl rfl rfl]
  simp only [ne_eq, Option.some.injEq]
  show ¬ (_ = c2State.lastStableMarkerPose)
  simp only [c2State, Option.some.injEq]
  intro h
  have hx := congrArg (fun p => p.position.x) h
  simp [propagatedPose, mat3MulVec3, c2State] at hx
  norm_num at hx

/-- Claim C2 (amended): for every frame in which the anchor is propagated
through marker occlusion by the odometry delta, the stored last-stable marker
pose is overwritten with the propagated pose (it equals the new anchor), so a
later successful marker re-detection is jump-checked against the propagated
state, not against the last pose anchored from ground truth. -/
theorem lastStable_overwritten_amended (sqrtFn : ℚ → ℚ) (st : FusionState)
    (inp : FrameInput) (lsp : Pose) (d : Delta)
    (hc : inp.corners = false) (hl : st.lastStableMarkerPose = some lsp)
    (hd : inp.slamDelta = some d) :
    (fusionStep sqrtFn st inp).state.lastStableMarkerPose =
      some (propagatedPose st lsp d) ∧
    (fusionStep sqrtFn st inp).anchor = some (propagatedPose st lsp d) ∧
    (propagatedPose st lsp d ≠ lsp →
      (fusionStep sqrtFn st inp).state.lastStableMarkerPose ≠ some lsp) ∧
    (∀ p', poseJumpTooLarge sqrtFn
        (fusionStep sqrtFn st inp).state.lastStableMarkerPose (some p') =
      poseJumpTooLarge sqrtFn (some (propagatedPose st lsp d)) (some p')) := by
  rw [fusionStep_propagate sqrtFn st inp lsp d hc hl hd]
  refine ⟨rfl, rfl, ?_, fun p' => rfl⟩
  intro hne h
  exact hne (Option.some.inj h)

/-- Witness for the amended C2 at the concrete inputs of its counterexample
scenario. -/
theorem lastStable_overwritten_amended_witness :
    (c2Input.corners = false ∧
     c2State.lastStableMarkerPose =
       some ⟨⟨1/10, 2/10, 3/10⟩, ⟨0, 0, 0⟩, some idMat3⟩ ∧
     c2Input.slamDelta = some ⟨⟨0, -1, 0, 1, 0, 0, 0, 0, 1⟩, 0, 0, 0⟩) ∧
    ((fusionStep Rat.sqrt c2State c2Input).state.lastStableMarkerPose =
       some (propagatedPose c2State
         ⟨⟨1/10, 2/10, 3/10⟩, ⟨0, 0, 0⟩, some idMat3⟩
         ⟨⟨0, -1, 0, 1, 0, 0, 0, 0, 1⟩, 0, 0, 0⟩) ∧
     (fusionStep Rat.sqrt c2State c2Input).anchor =
       some (propagatedPose c2State
         ⟨⟨1/10, 2/10, 3/10⟩, ⟨0, 0, 0⟩, some idMat3⟩
         ⟨⟨0, -1, 0, 1, 0, 0, 0, 0, 1⟩, 0, 0, 0⟩) ∧
     (propagatedPose c2State ⟨⟨1/10, 2/10, 3/10⟩, ⟨0, 0, 0⟩, some idMat3⟩
         ⟨⟨0, -1, 0, 1, 0, 0, 0, 0, 1⟩, 0, 0, 0⟩ ≠
        ⟨⟨1/10, 2/10, 3/10⟩, ⟨0, 0, 0⟩, some idMat3⟩ →
       (fusionStep Rat.sqrt c2State c2Input).state.lastStableMarkerPose ≠
         some ⟨⟨1/10, 2/10, 3/10⟩, ⟨0, 0, 0⟩, some idMat3⟩) ∧
     (∀ p', poseJumpTooLarge Rat.sqrt
         (fusionStep Rat.sqrt c2State c2Input).state.lastStableMarkerPose
         (some p') =
       poseJumpTooLarge Rat.sqrt
         (some (propagatedPose c2State
           ⟨⟨1/10, 2/10, 3/10⟩, ⟨0, 0, 0⟩, some idMat3⟩
           ⟨⟨0, -1, 0, 1, 0, 0, 0, 0, 1⟩, 0, 0, 0⟩)) (some p'))) :=
  ⟨⟨rfl, rfl, rfl⟩,
   lastStable_overwritten_amended Rat.sqrt c2State c2Input
     ⟨⟨1/10, 2/10, 3/10⟩, ⟨0, 0, 0⟩, some idMat3⟩
     ⟨⟨0, -1, 0, 1, 0, 0, 0, 0, 1⟩, 0, 0, 0⟩ rfl rfl rfl⟩

/-- The accept branch of the fusion step: corners present, a pose solved, and
the jump guard passing. -/
theorem fusionStep_accept (sqrtFn : ℚ → ℚ) (st : FusionState)
    (inp : FrameInput) (p : Pose)
    (hc : inp.corners = true) (hp : inp.pose = some p)
    (hnj : poseJumpTooLarge sqrtFn st.lastStableMarkerPose (some p) = false) :
    fusionStep sqrtFn st inp =
      { state :=
          { lastStableMarkerPose := some p
            slamMetricScale := updatedScale sqrtFn st p inp.slamDelta
            lastMarkerPoseForScale := some p
            lastSlamDeltaForScale := inp.slamDelta
            latestPose := some p }
        anchor := some p
        accepted := some p } := by
  simp [fusionStep, hc, hp, hnj]

/-- The reject branch of the fusion step: corners present, a pose solved, and
the jump guard firing. -/
theorem fusionStep_reject (sqrtFn : ℚ → ℚ) (st : FusionState)
    (inp : FrameInput) (p : Pose)
    (hc : inp.corners = true) (hp : inp.pose = some p)
    (hj : poseJumpTooLarge sqrtFn st.lastStableMarkerPose (some p) = true) :
    fusionStep sqrtFn st inp =
      { state := st, anchor := st.lastStableMarkerPose, accepted := none } := by
  simp [fusionStep, hc, hp, hj]

/-- The solve-failure branch of the fusion step: corners present but no pose
solved. -/
theorem fusionStep_noPose (sqrtFn : ℚ → ℚ) (st : FusionState)
    (inp : FrameInput) (hc : inp.corners = true) (hp : inp.pose = none) :
    fusionStep sqrtFn st inp =
      { state := st, anchor := st.lastStableMarkerPose, accepted := none } := by
  simp [fusionStep, hc, hp]

/-- The no-corner passthrough of the fusion step: without both a stable pose
and a delta, the state is untouched and the previous stable pose (or nothing)
is re-anchored. -/
theorem fusionStep_noCorners_noProp (sqrtFn : ℚ → ℚ) (st : FusionState)
    (inp : FrameInput) (hc : inp.corners = false)
    (h : st.lastStableMarkerPose = none ∨ inp.slamDelta = none) :
    fusionStep sqrtFn st inp =
      { state := st, anchor := st.lastStableMarkerPose, accepted := none } := by
  rcases h with h | h
  · simp [fusionStep, hc, h]
  · cases hl : st.lastStableMarkerPose <;> simp [fusionStep, hc, h, hl]

/-- `updatedScale` leaves the scale untouched without a delta. -/
theorem updatedScale_noDelta (sqrtFn : ℚ → ℚ) (st : FusionState) (p : Pose) :
    updatedScale sqrtFn st p none = st.slamMetricScale := rfl

/-- `updatedScale` leaves the scale untouched without a stored reference. -/
theorem updatedScale_noRef (sqrtFn : ℚ → ℚ) (st : FusionState) (p : Pose)
    (d : Delta) (hq : st.lastMarkerPoseForScale = none) :
    updatedScale sqrtFn st p (some d) = st.slamMetricScale := by
  simp [updatedScale, hq]

/-- The EMA update of `updatedScale` in terms of the squared marker
displacement and the squared odometry norm, assuming `sqrtFn` behaves as the
real square root at both radicands. -/
theorem updatedScale_spec (sqrtFn : ℚ → ℚ) (st : FusionState) (p : Pose)
    (d : Delta) (q : Pose)
    (hq : st.lastMarkerPoseForScale = some q)
    (hnnM : 0 ≤ sqrtFn (jumpDist2 q p))
    (hsqM : sqrtFn (jumpDist2 q p) * sqrtFn (jumpDist2 q p) = jumpDist2 q p)
    (hnnS : 0 ≤ sqrtFn (deltaNorm2 d))
    (hsqS : sqrtFn (deltaNorm2 d) * sqrtFn (deltaNorm2 d) = deltaNorm2 d) :
    (1/10000 * (1/10000) < jumpDist2 q p ∧
       1/1000000 * (1/1000000) < deltaNorm2 d →
      updatedScale sqrtFn st p (some d) =
        (if st.slamMetricScale > 0 then
           9/10 * st.slamMetricScale +
             1/10 * (sqrtFn (jumpDist2 q p) / sqrtFn (deltaNorm2 d))
         else sqrtFn (jumpDist2 q p) / sqrtFn (deltaNorm2 d))) ∧
    (¬ (1/10000 * (1/10000) < jumpDist2 q p ∧
        1/1000000 * (1/1000000) < deltaNorm2 d) →
      updatedScale sqrtFn st p (some d) = st.slamMetricScale) := by
  have hM : ((1 : ℚ)/10000 < sqrtFn (jumpDist2 q p)) ↔
      1/10000 * (1/10000) < jumpDist2 q p := by
    conv_rhs => rw [← hsqM]
    exact lt_iff_mul_self_lt (1/10000) (sqrtFn (jumpDist2 q p))
      (by norm_num) hnnM
  have hS : ((1 : ℚ)/1000000 < sqrtFn (deltaNorm2 d)) ↔
      1/1000000 * (1/1000000) < deltaNorm2 d := by
    conv_rhs => rw [← hsqS]
    exact lt_iff_mul_self_lt (1/1000000) (sqrtFn (deltaNorm2 d))
      (by norm_num) hnnS
  have hbody : updatedScale sqrtFn st p (some d) =
      (if sqrtFn (jumpDist2 q p) > 1/10000 ∧ sqrtFn (deltaNorm2 d) > 1/1000000
       then
         if st.slamMetricScale > 0 then
           9/10 * st.slamMetricScale +
             1/10 * (sqrtFn (jumpDist2 q p) / sqrtFn (deltaNorm2 d))
         else sqrtFn (jumpDist2 q p) / sqrtFn (deltaNorm2 d)
       else st.slamMetricScale) := by
    simp only [updatedScale, hq]
    rfl
  constructor
  · intro hcond
    rw [hbody, if_pos ⟨hM.mpr hcond.1, hS.mpr hcond.2⟩]
  · intro hcond
    rw [hbody, if_neg]
    intro hand
    exact hcond ⟨hM.mp hand.1, hS.mp hand.2⟩

/-- In every fusion step, either nothing is accepted and the metric scale is
untouched, or a pose is accepted and the scale is produced by the accept
branch's `updatedScale`. -/
theorem fusionStep_scale_cases (sqrtFn : ℚ → ℚ) (st : FusionState)
    (inp : FrameInput) :
    ((fusionStep sqrtFn st inp).accepted = none ∧
     (fusionStep sqrtFn st inp).state.slamMetricScale = st.slamMetricScale) ∨
    ∃ p, inp.pose = some p ∧ (fusionStep sqrtFn st inp).accepted = some p ∧
      (fusionStep sqrtFn st inp).state.slamMetricScale =
        updatedScale sqrtFn st p inp.slamDelta := by
  by_cases hc : inp.corners = true
  · cases hp : inp.pose with
    | none =>
      left
      rw [fusionStep_noPose sqrtFn st inp hc hp]
      exact ⟨rfl, rfl⟩
    | some p =>
      cases hj : poseJumpTooLarge sqrtFn st.lastStableMarkerPose (some p) with
      | true =>
        left
        rw [fusionStep_reject sqrtFn st inp p hc hp hj]
        exact ⟨rfl, rfl⟩
      | false =>
        right
        have heq := fusionStep_accept sqrtFn st inp p hc hp hj
        exact ⟨p, hp ▸ rfl, by rw [heq], by rw [heq]⟩
  · have hc' : inp.corners = false := by
      cases hcv : inp.corners
      · rfl
      · exact absurd hcv hc
    left
    cases hl : st.lastStableMarkerPose with
    | none =>
      rw [fusionStep_noCorners_noProp sqrtFn st inp hc' (Or.inl hl)]
      exact ⟨rfl, rfl⟩
    | some lsp =>
      cases hdel : inp.slamDelta with
      | none =>
        rw [fusionStep_noCorners_noProp sqrtFn st inp hc' (Or.inr hdel)]
        exact ⟨rfl, rfl⟩
      | some d =>
        rw [fusionStep_propagate sqrtFn st inp lsp d hc' hl hdel]
        exact ⟨rfl, rfl⟩

/-- Claim C5: for every frame with a solved metric pose and an existing
last-accepted marker pose, if the Euclidean distance between them does not
exceed 0.25 m (squared distance at most 0.25²) the pose is accepted — it
becomes the new last-accepted marker pose and the new anchor pose — and if
the distance exceeds 0.25 m the pose is rejected and the whole fusion step
behaves identically to a frame in which no pose was solved (no error is
surfaced: the step is a total function either way). -/
theorem solved_pose_accept_or_reject (sqrtFn : ℚ → ℚ) (st : FusionState)
    (inp : FrameInput) (p q : Pose)
    (hc : inp.corners = true) (hp : inp.pose = some p)
    (hl : st.lastStableMarkerPose = some q)
    (hnn : 0 ≤ sqrtFn (jumpDist2 q p))
    (hsq : sqrtFn (jumpDist2 q p) * sqrtFn (jumpDist2 q p) = jumpDist2 q p) :
    (jumpDist2 q p ≤ 1/4 * (1/4) →
      (fusionStep sqrtFn st inp).accepted = some p ∧
      (fusionStep sqrtFn st inp).state.lastStableMarkerPose = some p ∧
      (fusionStep sqrtFn st inp).anchor = some p) ∧
    (1/4 * (1/4) < jumpDist2 q p →
      fusionStep sqrtFn st inp =
        fusionStep sqrtFn st { inp with pose := none }) := by
  have hiff := (poseJumpTooLarge_iff_dist_gt sqrtFn q p hnn hsq).1
  constructor
  · intro hle
    have hnj : poseJumpTooLarge sqrtFn st.lastStableMarkerPose (some p) =
        false := by
      rw [hl]
      cases hb : poseJumpTooLarge sqrtFn (some q) (some p)
      · rfl
      · exact absurd (hiff.mp hb) (not_lt.mpr hle)
    rw [fusionStep_accept sqrtFn st inp p hc hp hnj]
    exact ⟨rfl, rfl, rfl⟩
  · intro hgt
    have hj : poseJumpTooLarge sqrtFn st.lastStableMarkerPose (some p) =
        true := by
      rw [hl]
      exact hiff.mpr hgt
    rw [fusionStep_reject sqrtFn st inp p hc hp hj,
      fusionStep_noPose sqrtFn st { inp with pose := none } (by simpa using hc)
        rfl]

/-- Witness for C5 at concrete inputs: stable pose at `(0.1, 0, 0)` with a
learned scale, a new pose solved at `(0.3, 0, 0)` — distance 0.2 m, within
the threshold — is accepted. -/
theorem solved_pose_accept_or_reject_witness :
    (c3wInput.corners = true ∧
     c3wInput.pose = some c3wPose ∧
     c3wState.lastStableMarkerPose = some c3Pose3 ∧
     0 ≤ Rat.sqrt (jumpDist2 c3Pose3 c3wPose) ∧
     Rat.sqrt (jumpDist2 c3Pose3 c3wPose) *
       Rat.sqrt (jumpDist2 c3Pose3 c3wPose) = jumpDist2 c3Pose3 c3wPose) ∧
    ((jumpDist2 c3Pose3 c3wPose ≤ 1/4 * (1/4) →
      (fusionStep Rat.sqrt c3wState c3wInput).accepted = some c3wPose ∧
      (fusionStep Rat.sqrt c3wState c3wInput).state.lastStableMarkerPose =
        some c3wPose ∧
      (fusionStep Rat.sqrt c3wState c3wInput).anchor = some c3wPose) ∧
     (1/4 * (1/4) < jumpDist2 c3Pose3 c3wPose →
      fusionStep Rat.sqrt c3wState c3wInput =
        fusionStep Rat.sqrt c3wState { c3wInput with pose := none })) := by
  have hd : jumpDist2 c3Pose3 c3wPose = 1/25 := by
    norm_num [jumpDist2, c3Pose3, c3wPose]
  have hs : Rat.sqrt (jumpDist2 c3Pose3 c3wPose) = 1/5 := by
    rw [hd]
    exact rat_sqrt_of_sq _ _ (by norm_num) (by norm_num)
  have hnn : 0 ≤ Rat.sqrt (jumpDist2 c3Pose3 c3wPose) := by
    rw [hs]; norm_num
  have hsq : Rat.sqrt (jumpDist2 c3Pose3 c3wPose) *
      Rat.sqrt (jumpDist2 c3Pose3 c3wPose) = jumpDist2 c3Pose3 c3wPose := by
    rw [hs, hd]; norm_num
  exact ⟨⟨rfl, rfl, rfl, hnn, hsq⟩,
    solved_pose_accept_or_reject Rat.sqrt c3wState c3wInput c3wPose c3Pose3
      rfl rfl rfl hnn hsq⟩

/-- Counterexample to claim C3 as stated: in the three-frame trace
`c3r1, c3r2, c3r3`, frame 2 has no accepted marker pose (and no corners at
all), yet frame 3 — whose reference pose dates from frame 1 — updates the
scale estimate from 0 to 2.  The condition "the previous frame also had an
accepted marker pose" therefore does not govern the update. -/
theorem scale_ema_cex :
    c3r2.accepted = none ∧
    c3r2.state.slamMetricScale = 0 ∧
    c3r3.state.slamMetricScale = 2 := by
  have h1 : c3r1 =
      ⟨⟨some originPose, 0, some originPose, none, some originPose⟩,
       some originPose, some originPose⟩ := by
    show fusionStep Rat.sqrt initialFusionState ⟨true, some originPose, none⟩ = _
    rw [fusionStep_accept Rat.sqrt initialFusionState
      ⟨true, some originPose, none⟩ originPose rfl rfl rfl]
    rfl
  have h2 : c3r2 =
      ⟨⟨some originPose, 0, some originPose, none, some originPose⟩,
       some originPose, none⟩ := by
    show fusionStep Rat.sqrt c3r1.state ⟨false, none, none⟩ = _
    rw [h1]
    rw [fusionStep_noCorners_noProp Rat.sqrt _ _ rfl (Or.inr rfl)]
  have hdm : jumpDist2 originPose c3Pose3 = 1/100 := by
    norm_num [jumpDist2, originPose, c3Pose3]
  have hsm : Rat.sqrt (jumpDist2 originPose c3Pose3) = 1/10 := by
    rw [hdm]
    exact rat_sqrt_of_sq _ _ (by norm_num) (by norm_num)
  have hds : deltaNorm2 c3Delta = 1/400 := by
    norm_num [deltaNorm2, c3Delta]
  have hss : Rat.sqrt (deltaNorm2 c3Delta) = 1/20 := by
    rw [hds]
    exact rat_sqrt_of_sq _ _ (by norm_num) (by norm_num)
  have hpj : poseJumpTooLarge Rat.sqrt (some originPose) (some c3Pose3) =
      false := by
    rw [poseJumpTooLarge_eq, decide_eq_false_iff_not, hsm]
    norm_num
  have h3 : c3r3.state.slamMetricScale =
      updatedScale Rat.sqrt
        ⟨some originPose, 0, some originPose, none, some originPose⟩
        c3Pose3 (some c3Delta) := by
    show (fusionStep Rat.sqrt c3r2.state
      ⟨true, some c3Pose3, some c3Delta⟩).state.slamMetricScale = _
    rw [h2]
    rw [fusionStep_accept Rat.sqrt
      ⟨some originPose, 0, some originPose, none, some originPose⟩
      ⟨true, some c3Pose3, some c3Delta⟩ c3Pose3 rfl rfl hpj]
  have hupd : updatedScale Rat.sqrt
      ⟨some originPose, 0, some originPose, none, some originPose⟩
      c3Pose3 (some c3Delta) = 2 := by
    have hspec := (updatedScale_spec Rat.sqrt
      ⟨some originPose, 0, some originPose, none, some originPose⟩
      c3Pose3 c3Delta originPose rfl
      (by rw [hsm]; norm_num) (by rw [hsm, hdm]; norm_num)
      (by rw [hss]; norm_num) (by rw [hss, hds]; norm_num)).1
    rw [hspec ⟨by rw [hdm]; norm_num, by rw [hds]; norm_num⟩]
    rw [if_neg (by norm_num), hsm, hss]
    norm_num
  refine ⟨?_, ?_, ?_⟩
  · rw [h2]
  · rw [h2]
  · rw [h3, hupd]

/-- Claim C3 (amended): the scale estimate changes only in a frame with an
accepted marker pose, an odometry delta, and a stored reference marker pose
from some earlier accepted frame (not necessarily the immediately preceding
frame); and in such a frame, assuming `sqrtFn` behaves as the real square
root at both radicands, the update fires exactly when the marker displacement
exceeds 1e-4 m (squared: 1e-8) and the odometry norm exceeds 1e-6 (squared:
1e-12), in which case the new scale is
`0.9·scale + 0.1·(displacement/odomNorm)` when the old scale was positive and
`displacement/odomNorm` when it was 0; otherwise the scale is unchanged. -/
theorem scale_ema_amended (sqrtFn : ℚ → ℚ) (st : FusionState)
    (inp : FrameInput) :
    ((fusionStep sqrtFn st inp).state.slamMetricScale ≠ st.slamMetricScale →
      (fusionStep sqrtFn st inp).accepted.isSome = true ∧
      inp.slamDelta.isSome = true ∧
      st.lastMarkerPoseForScale.isSome = true) ∧
    (∀ p d q, (fusionStep sqrtFn st inp).accepted = some p →
      inp.slamDelta = some d → st.lastMarkerPoseForScale = some q →
      0 ≤ sqrtFn (jumpDist2 q p) →
      sqrtFn (jumpDist2 q p) * sqrtFn (jumpDist2 q p) = jumpDist2 q p →
      0 ≤ sqrtFn (deltaNorm2 d) →
      sqrtFn (deltaNorm2 d) * sqrtFn (deltaNorm2 d) = deltaNorm2 d →
      (1/10000 * (1/10000) < jumpDist2 q p ∧
         1/1000000 * (1/1000000) < deltaNorm2 d →
        (fusionStep sqrtFn st inp).state.slamMetricScale =
          (if st.slamMetricScale > 0 then
             9/10 * st.slamMetricScale +
               1/10 * (sqrtFn (jumpDist2 q p) / sqrtFn (deltaNorm2 d))
           else sqrtFn (jumpDist2 q p) / sqrtFn (deltaNorm2 d))) ∧
      (¬ (1/10000 * (1/10000) < jumpDist2 q p ∧
          1/1000000 * (1/1000000) < deltaNorm2 d) →
        (fusionStep sqrtFn st inp).state.slamMetricScale =
          st.slamMetricScale)) := by
  constructor
  · intro hne
    rcases fusionStep_scale_cases sqrtFn st inp with ⟨_, hsc⟩ | ⟨p, hp, hacc, hsc⟩
    · exact absurd hsc hne
    · refine ⟨by rw [hacc]; rfl, ?_, ?_⟩
      · cases hdel : inp.slamDelta with
        | none =>
          rw [hdel, updatedScale_noDelta] at hsc
          exact absurd hsc hne
        | some d => rfl
      · cases hq : st.lastMarkerPoseForScale with
        | none =>
          cases hdel : inp.slamDelta with
          | none =>
            rw [hdel, updatedScale_noDelta] at hsc
            exact absurd hsc hne
          | some d =>
            rw [hdel, updatedScale_noRef sqrtFn st p d hq] at hsc
            exact absurd hsc hne
        | some q => rfl
  · intro p d q hacc hdel hq hnnM hsqM hnnS hsqS
    rcases fusionStep_scale_cases sqrtFn st inp with ⟨hnone, _⟩ | ⟨p', _, hacc', hsc⟩
    · rw [hacc] at hnone
      exact absurd hnone (by simp)
    · rw [hacc] at hacc'
      have hpp : p' = p := Option.some.inj hacc'.symm
      rw [hpp] at hsc
      rw [hdel] at hsc
      have hspec := updatedScale_spec sqrtFn st p d q hq hnnM hsqM hnnS hsqS
      constructor
      · intro hcond
        rw [hsc, hspec.1 hcond]
      · intro hcond
        rw [hsc, hspec.2 hcond]

/-- Witness for the amended C3: the second EMA update of the spec's example —
prior scale 2.0, displacement 0.2 m, odometry norm 0.05 — yields
`0.9·2.0 + 0.1·4.0 = 2.2`. -/
theorem scale_ema_amended_witness :
    ((fusionStep Rat.sqrt c3wState c3wInput).accepted = some c3wPose ∧
     c3wInput.slamDelta = some c3Delta ∧
     c3wState.lastMarkerPoseForScale = some c3Pose3 ∧
     0 ≤ Rat.sqrt (jumpDist2 c3Pose3 c3wPose) ∧
     Rat.sqrt (jumpDist2 c3Pose3 c3wPose) *
       Rat.sqrt (jumpDist2 c3Pose3 c3wPose) = jumpDist2 c3Pose3 c3wPose ∧
     0 ≤ Rat.sqrt (deltaNorm2 c3Delta) ∧
     Rat.sqrt (deltaNorm2 c3Delta) * Rat.sqrt (deltaNorm2 c3Delta) =
       deltaNorm2 c3Delta ∧
     (1/10000 * (1/10000) < jumpDist2 c3Pose3 c3wPose ∧
      1/1000000 * (1/1000000) < deltaNorm2 c3Delta)) ∧
    (fusionStep Rat.sqrt c3wState c3wInput).state.slamMetricScale = 11/5 := by
  have hdm : jumpDist2 c3Pose3 c3wPose = 1/25 := by
    norm_num [jumpDist2, c3Pose3, c3wPose]
  have hsm : Rat.sqrt (jumpDist2 c3Pose3 c3wPose) = 1/5 := by
    rw [hdm]
    exact rat_sqrt_of_sq _ _ (by norm_num) (by norm_num)
  have hds : deltaNorm2 c3Delta = 1/400 := by
    norm_num [deltaNorm2, c3Delta]
  have hss : Rat.sqrt (deltaNorm2 c3Delta) = 1/20 := by
    rw [hds]
    exact rat_sqrt_of_sq _ _ (by norm_num) (by norm_num)
  have hpj : poseJumpTooLarge Rat.sqrt c3wState.lastStableMarkerPose
      (some c3wPose) = false := by
    show poseJumpTooLarge Rat.sqrt (some c3Pose3) (some c3wPose) = false
    rw [poseJumpTooLarge_eq, decide_eq_false_iff_not, hsm]
    norm_num
  have hacc : (fusionStep Rat.sqrt c3wState c3wInput).accepted =
      some c3wPose := by
    rw [fusionStep_accept Rat.sqrt c3wState c3wInput c3wPose rfl rfl hpj]
  have hnnM : 0 ≤ Rat.sqrt (jumpDist2 c3Pose3 c3wPose) := by
    rw [hsm]; norm_num
  have hsqM : Rat.sqrt (jumpDist2 c3Pose3 c3wPose) *
      Rat.sqrt (jumpDist2 c3Pose3 c3wPose) = jumpDist2 c3Pose3 c3wPose := by
    rw [hsm, hdm]; norm_num
  have hnnS : 0 ≤ Rat.sqrt (deltaNorm2 c3Delta) := by
    rw [hss]; norm_num
  have hsqS : Rat.sqrt (deltaNorm2 c3Delta) * Rat.sqrt (deltaNorm2 c3Delta) =
      deltaNorm2 c3Delta := by
    rw [hss, hds]; norm_num
  have hcond : 1/10000 * (1/10000) < jumpDist2 c3Pose3 c3wPose ∧
      1/1000000 * (1/1000000) < deltaNorm2 c3Delta := by
    constructor
    · rw [hdm]; norm_num
    · rw [hds]; norm_num
  have hmain := ((scale_ema_amended Rat.sqrt c3wState c3wInput).2
    c3wPose c3Delta c3Pose3 hacc rfl rfl hnnM hsqM hnnS hsqS).1 hcond
  refine ⟨⟨hacc, rfl, rfl, hnnM, hsqM, hnnS, hsqS, hcond⟩, ?_⟩
  rw [hmain, if_pos (by norm_num [c3wState]), hsm, hss]
  norm_num [c3wState]

/-- The detect phase preserves well-formedness of the tracking state. -/
theorem trackerDetectPhase_WF (s : TrackerState) (hs : s.WF)
    (d : Option (List Vec2)) : (trackerDetectPhase s d).state.WF := by
  cases d with
  | none => exact hs
  | some c =>
    by_cases h4 : c.length = 4
    · simp [trackerDetectPhase, h4, TrackerState.WF]
    · simpa [trackerDetectPhase, h4] using hs

/-- The step factors through the detect phase when the flow phase yields no
corners. -/
theorem trackerStep_eq_detect (st : TrackerState) (inp : TrackerInput)
    (h : (trackerFlowPhase st inp).2 = none) :
    trackerStep st inp = trackerDetectPhase (trackerFlowPhase st inp).1
      inp.det := by
  unfold trackerStep
  simp only [h]

/-- The flow phase clears the tracking state when any of the four points
fails to track (or the status buffer is malformed). -/
theorem trackerFlowPhase_fail (st : TrackerState) (inp : TrackerInput)
    (pts : List Vec2) (ht : st.tracking = true) (hp : st.prevPts = some pts)
    (h4 : pts.length = 4)
    (hbad : ¬ (inp.flow.status.length = 4 ∧
      inp.flow.status.all (fun s => s) = true)) :
    trackerFlowPhase st inp = (⟨false, none⟩, none) := by
  unfold trackerFlowPhase
  rw [hp]
  show (if st.tracking = true ∧ pts.length = 4 then
      if inp.flow.status.length = 4 ∧
          inp.flow.status.all (fun s => s) = true then
        ((⟨true, some inp.flow.pts⟩ : TrackerState),
          some (inp.flow.pts.take 4))
      else ((⟨false, none⟩ : TrackerState), (none : Option (List Vec2)))
    else (st, none)) =
    ((⟨false, none⟩ : TrackerState), (none : Option (List Vec2)))
  rw [if_pos ⟨ht, h4⟩, if_neg hbad]

/-- While not tracking, or without stored points, the flow phase is skipped. -/
theorem trackerFlowPhase_skip (st : TrackerState) (inp : TrackerInput)
    (h : st.tracking = false ∨ st.prevPts = none) :
    trackerFlowPhase st inp = (st, none) := by
  rcases h with h | h
  · cases hp : st.prevPts with
    | none => simp [trackerFlowPhase, hp]
    | some pts => simp [trackerFlowPhase, hp, h]
  · simp [trackerFlowPhase, h]

/-- Claim C6: the marker tracker is a two-mode state machine holding zero or
exactly four corner points (well-formedness is preserved by every step, given
the optical-flow library contract of one output point per status row); from
`Detecting` it invokes full detection and moves to `Tracking` exactly on a
four-corner detection; in `Tracking` it stays tracking via optical flow when
all four corners succeed, never invoking detection on such frames; and when
any corner fails, the tracking state is cleared, full detection is attempted
on the same frame, and if that detection also fails the machine is left in
`Detecting`. -/
theorem tracker_state_machine (st : TrackerState) (inp : TrackerInput)
    (hwf : st.WF) (hlen : inp.flow.pts.length = inp.flow.status.length) :
    (trackerStep st inp).state.WF
    ∧ (st.tracking = false →
        (trackerStep st inp).detectInvoked = true ∧
        (∀ c, inp.det = some c → c.length = 4 →
          (trackerStep st inp).state = ⟨true, some c⟩ ∧
          (trackerStep st inp).corners = some c))
    ∧ (∀ pts, st.tracking = true → st.prevPts = some pts →
        ((inp.flow.status.length = 4 ∧
            inp.flow.status.all (fun s => s) = true) →
          (trackerStep st inp).detectInvoked = false ∧
          (trackerStep st inp).state = ⟨true, some inp.flow.pts⟩ ∧
          (trackerStep st inp).corners = some inp.flow.pts)
        ∧ (¬ (inp.flow.status.length = 4 ∧
              inp.flow.status.all (fun s => s) = true) →
          (trackerStep st inp).detectInvoked = true ∧
          (inp.det = none →
            (trackerStep st inp).state = ⟨false, none⟩))) := by
  obtain ⟨hwt, hwl⟩ := hwf
  refine ⟨?_, ?_, ?_⟩
  · -- invariant preservation
    cases hp : st.prevPts with
    | none =>
      have hfp := trackerFlowPhase_skip st inp (Or.inr hp)
      rw [trackerStep_eq_detect st inp (by rw [hfp])]
      rw [hfp]
      exact trackerDetectPhase_WF st ⟨hwt, hwl⟩ inp.det
    | some pts =>
      have h4 : pts.length = 4 := hwl pts (by rw [hp]; rfl)
      have ht : st.tracking = true := by
        rw [hwt, hp]; rfl
      by_cases hok : inp.flow.status.length = 4 ∧
          inp.flow.status.all (fun s => s) = true
      · have hfp : trackerFlowPhase st inp =
            (⟨true, some inp.flow.pts⟩, some (inp.flow.pts.take 4)) := by
          simp [trackerFlowPhase, hp, ht, h4, hok.1, hok.2]
        have hstep : trackerStep st inp =
            { state := ⟨true, some inp.flow.pts⟩
              corners := some (inp.flow.pts.take 4)
              detectInvoked := false } := by
          unfold trackerStep
          rw [hfp]
        rw [hstep]
        refine ⟨rfl, ?_⟩
        intro l hl
        have hl' : inp.flow.pts = l := by simpa using hl
        rw [← hl', hlen, hok.1]
      · have hfp : trackerFlowPhase st inp = (⟨false, none⟩, none) :=
          trackerFlowPhase_fail st inp pts ht hp h4 hok
        rw [trackerStep_eq_detect st inp (by rw [hfp])]
        rw [hfp]
        exact trackerDetectPhase_WF ⟨false, none⟩ (by simp [TrackerState.WF])
          inp.det
  · -- Detecting: full detection is attempted, success seeds Tracking
    intro hnt
    have hp : st.prevPts = none := by
      cases hpv : st.prevPts with
      | none => rfl
      | some pts =>
        rw [hpv] at hwt
        rw [hnt] at hwt
        exact absurd hwt.symm (by simp)
    have hfp := trackerFlowPhase_skip st inp (Or.inr hp)
    rw [trackerStep_eq_detect st inp (by rw [hfp]), hfp]
    constructor
    · cases hd : inp.det with
      | none => rfl
      | some c =>
        by_cases h4 : c.length = 4 <;> simp [trackerDetectPhase, h4]
    · intro c hd h4
      rw [hd]
      simp [trackerDetectPhase, h4]
  · -- Tracking: flow success keeps tracking without detection; any failure
    -- clears the state and falls back to detection
    intro pts ht hp
    have h4 : pts.length = 4 := hwl pts (by rw [hp]; rfl)
    constructor
    · intro hok
      have hfp : trackerFlowPhase st inp =
          (⟨true, some inp.flow.pts⟩, some (inp.flow.pts.take 4)) := by
        simp [trackerFlowPhase, hp, ht, h4, hok.1, hok.2]
      have htake : inp.flow.pts.take 4 = inp.flow.pts := by
        apply List.take_of_length_le
        rw [hlen, hok.1]
      have hstep : trackerStep st inp =
          { state := ⟨true, some inp.flow.pts⟩
            corners := some (inp.flow.pts.take 4)
            detectInvoked := false } := by
        unfold trackerStep
        rw [hfp]
      rw [hstep, htake]
      exact ⟨rfl, rfl, rfl⟩
    · intro hbad
      have hfp : trackerFlowPhase st inp = (⟨false, none⟩, none) :=
        trackerFlowPhase_fail st inp pts ht hp h4 hbad
      rw [trackerStep_eq_detect st inp (by rw [hfp]), hfp]
      constructor
      · cases hd : inp.det with
        | none => rfl
        | some c =>
          by_cases hc4 : c.length = 4 <;> simp [trackerDetectPhase, hc4]
      · intro hd
        rw [hd]
        rfl

/-- Witness for C6: a well-formed tracking state with four corners, all of
which track successfully, stays in `Tracking` without invoking detection. -/
theorem tracker_state_machine_witness :
    (c6State.WF ∧ c6Input.flow.pts.length = c6Input.flow.status.length) ∧
    ((trackerStep c6State c6Input).state.WF
     ∧ (c6State.tracking = false →
         (trackerStep c6State c6Input).detectInvoked = true ∧
         (∀ c, c6Input.det = some c → c.length = 4 →
           (trackerStep c6State c6Input).state = ⟨true, some c⟩ ∧
           (trackerStep c6State c6Input).corners = some c))
     ∧ (∀ pts, c6State.tracking = true → c6State.prevPts = some pts →
         ((c6Input.flow.status.length = 4 ∧
             c6Input.flow.status.all (fun s => s) = true) →
           (trackerStep c6State c6Input).detectInvoked = false ∧
           (trackerStep c6State c6Input).state =
             ⟨true, some c6Input.flow.pts⟩ ∧
           (trackerStep c6State c6Input).corners = some c6Input.flow.pts)
         ∧ (¬ (c6Input.flow.status.length = 4 ∧
               c6Input.flow.status.all (fun s => s) = true) →
           (trackerStep c6State c6Input).detectInvoked = true ∧
           (c6Input.det = none →
             (trackerStep c6State c6Input).state = ⟨false, none⟩)))) := by
  have hwf : c6State.WF := by
    constructor
    · rfl
    · intro pts hp
      cases hp
      rfl
  exact ⟨⟨hwf, rfl⟩, tracker_state_machine c6State c6Input hwf rfl⟩

/-- Counterexample to claim C7 as stated: the `detect` revision that the
application instantiates (lines 104-207) never reads the RANSAC inlier mask.
On `c7Input` — twelve ratio-test matches, a valid homography, but an inlier
mask marking zero inliers — it still returns a corner set. -/
theorem detect_ignores_inliers_cex :
    (MarkerTracker.detect c7Input).isSome = true ∧
    (c7Input.inlierMask.filter (fun b => b)).length = 0 ∧
    ¬ 12 ≤ (c7Input.inlierMask.filter (fun b => b)).length := by
  refine ⟨?_, ?_, ?_⟩
  · norm_num [MarkerTracker.detect, c7Input, ratioTestGood,
      List.filterMap_cons, List.filterMap_nil]
  · norm_num [c7Input]
  · norm_num [c7Input]

/-- Claim C7 (amended): the application's `detect` (first revision) returns
nothing unless there are at least 12 ratio-test matches and a valid 3x3
homography — it performs no geometric-inlier check — and on success returns
exactly the template's four corners projected through the homography in order
top-left, top-right, bottom-right, bottom-left.  The second revision
(lines 284-395) additionally requires at least 12 geometric inliers of the
homography, as the claim states, with the same corner projection. -/
theorem detect_gates_amended :
    (∀ (inp : DetectInput1) (r : List Vec2),
      MarkerTracker.detect inp = some r →
      12 ≤ (ratioTestGood inp.knn).length ∧
      inp.homography.isSome = true ∧
      ∀ H, inp.homography = some H →
        r = [projectPoint H 0 0, projectPoint H inp.templateW 0,
             projectPoint H inp.templateW inp.templateH,
             projectPoint H 0 inp.templateH])
    ∧ (∀ (inp : DetectInput2) (r : List Vec2),
      MarkerTrackerV2.detect inp = some r →
      12 ≤ inp.matchList.length ∧
      inp.homography.isSome = true ∧
      12 ≤ (inp.inlierMask.filter (fun b => b)).length ∧
      ∀ H, inp.homography = some H →
        r = [projectPoint H 0 0, projectPoint H inp.markerW 0,
             projectPoint H inp.markerW inp.markerH,
             projectPoint H 0 inp.markerH]) := by
  constructor
  · intro inp r hr
    unfold MarkerTracker.detect at hr
    by_cases h1 : inp.templateDescEmpty = true
    · rw [if_pos h1] at hr
      exact absurd hr (by simp)
    rw [if_neg h1] at hr
    by_cases h2 : inp.frameDescEmpty = true ∨ inp.frameKpCount < 10
    · rw [if_pos h2] at hr
      exact absurd hr (by simp)
    rw [if_neg h2] at hr
    by_cases h3 : (ratioTestGood inp.knn).length < 12
    · rw [if_pos h3] at hr
      exact absurd hr (by simp)
    rw [if_neg h3] at hr
    refine ⟨not_lt.mp h3, ?_, ?_⟩
    · cases hh : inp.homography with
      | none =>
        rw [hh] at hr
        exact absurd hr (by simp)
      | some H => simp
    · intro H hh
      rw [hh] at hr
      exact (Option.some.inj hr).symm
  · intro inp r hr
    unfold MarkerTrackerV2.detect at hr
    by_cases h1 : ¬ inp.ready = true
    · rw [if_pos h1] at hr
      exact absurd hr (by simp)
    rw [if_neg h1] at hr
    by_cases h2 : ¬ inp.oneChannel = true
    · rw [if_pos h2] at hr
      exact absurd hr (by simp)
    rw [if_neg h2] at hr
    by_cases h3 : inp.markerDescEmpty = true
    · rw [if_pos h3] at hr
      exact absurd hr (by simp)
    rw [if_neg h3] at hr
    by_cases h4 : inp.frameDescEmpty = true ∨ inp.frameKpCount < 20
    · rw [if_pos h4] at hr
      exact absurd hr (by simp)
    rw [if_neg h4] at hr
    by_cases h5 : inp.matchList.length < 12
    · rw [if_pos h5] at hr
      exact absurd hr (by simp)
    rw [if_neg h5] at hr
    refine ⟨not_lt.mp h5, ?_, ?_, ?_⟩
    · cases hh : inp.homography with
      | none =>
        rw [hh] at hr
        exact absurd hr (by simp)
      | some H => simp
    · cases hh : inp.homography with
      | none =>
        rw [hh] at hr
        exact absurd hr (by simp)
      | some H =>
        rw [hh] at hr
        have hr' : (if (inp.inlierMask.filter (fun b => b)).length < 12 then
            (none : Option (List Vec2))
          else some [projectPoint H 0 0, projectPoint H inp.markerW 0,
                     projectPoint H inp.markerW inp.markerH,
                     projectPoint H 0 inp.markerH]) = some r := hr
        by_cases h6 : (inp.inlierMask.filter (fun b => b)).length < 12
        · rw [if_pos h6] at hr'
          exact absurd hr' (by simp)
        · exact not_lt.mp h6
    · intro H hh
      rw [hh] at hr
      have hr' : (if (inp.inlierMask.filter (fun b => b)).length < 12 then
          (none : Option (List Vec2))
        else some [projectPoint H 0 0, projectPoint H inp.markerW 0,
                   projectPoint H inp.markerW inp.markerH,
                   projectPoint H 0 inp.markerH]) = some r := hr
      by_cases h6 : (inp.inlierMask.filter (fun b => b)).length < 12
      · rw [if_pos h6] at hr'
        exact absurd hr' (by simp)
      · rw [if_neg h6] at hr'
        exact (Option.some.inj hr').symm

/-- Witness for the amended C7: concrete successful detections for both
revisions, with the conclusions of the amended claim at those inputs. -/
theorem detect_gates_amended_witness :
    (MarkerTracker.detect c7Input =
       some [projectPoint idMat3 0 0, projectPoint idMat3 c7Input.templateW 0,
             projectPoint idMat3 c7Input.templateW c7Input.templateH,
             projectPoint idMat3 0 c7Input.templateH] ∧
     MarkerTrackerV2.detect c7Input2 =
       some [projectPoint idMat3 0 0, projectPoint idMat3 c7Input2.markerW 0,
             projectPoint idMat3 c7Input2.markerW c7Input2.markerH,
             projectPoint idMat3 0 c7Input2.markerH]) ∧
    (12 ≤ (ratioTestGood c7Input.knn).length ∧
     c7Input.homography.isSome = true) ∧
    (12 ≤ c7Input2.matchList.length ∧
     c7Input2.homography.isSome = true ∧
     12 ≤ (c7Input2.inlierMask.filter (fun b => b)).length) := by
  have hd1 : MarkerTracker.detect c7Input =
      some [projectPoint idMat3 0 0, projectPoint idMat3 c7Input.templateW 0,
            projectPoint idMat3 c7Input.templateW c7Input.templateH,
            projectPoint idMat3 0 c7Input.templateH] := by
    norm_num [MarkerTracker.detect, c7Input, ratioTestGood,
      List.filterMap_cons, List.filterMap_nil]
  have hd2 : MarkerTrackerV2.detect c7Input2 =
      some [projectPoint idMat3 0 0, projectPoint idMat3 c7Input2.markerW 0,
            projectPoint idMat3 c7Input2.markerW c7Input2.markerH,
            projectPoint idMat3 0 c7Input2.markerH] := by
    norm_num [MarkerTrackerV2.detect, c7Input2]
  have h1 := detect_gates_amended.1 c7Input _ hd1
  have h2 := detect_gates_amended.2 c7Input2 _ hd2
  exact ⟨⟨hd1, hd2⟩, ⟨h1.1, h1.2.1⟩, ⟨h2.1, h2.2.1, h2.2.2.1⟩⟩

/-- The surviving-track buffer always holds an even number of entries — two
per surviving correspondence — so `goodPrev.length < 16` means fewer than 8
correspondences, not fewer than 16. -/
theorem collectGood_length_even : ∀ (status : List Bool) (flat : List ℚ),
    (collectGood status flat).length % 2 = 0 := by
  intro status
  induction status with
  | nil => intro flat; rfl
  | cons s rest ih =>
    intro flat
    match flat with
    | [] => rfl
    | [x] => rfl
    | x :: y :: tl =>
      cases s
      · simpa [collectGood] using ih tl
      · have hev := ih tl
        simp [collectGood]
        omega

/-- Counterexample to claim C8 as stated: with exactly 10 surviving tracked
correspondences — fewer than 16, so the claim demands that motion estimation
be skipped — the core proceeds into the epipolar solve, because the code
compares the flat coordinate buffer length (20 entries, two per
correspondence) against 16. -/
theorem slam_skip_threshold_cex :
    c8Input.flowStatus.length = 10 ∧
    (10 : ℕ) < 16 ∧
    (collectGood c8Input.flowStatus c8State.prevPointsFlat).length = 2 * 10 ∧
    slamAttempted (SlamCore.processFrame c8State c8Input) = true := by
  refine ⟨rfl, by norm_num, ?_, rfl⟩
  rfl

/-- Claim C8 (amended): for every frame in which the surviving flat track
buffer holds fewer than 16 entries — that is, fewer than 8 surviving tracked
correspondences, since the buffer stores two coordinates per correspondence —
the visual odometry core skips motion estimation entirely (the returned flag
is false and the cumulative pose fields are untouched), re-seeds its feature
set from the current frame's detected features, and returns normally rather
than raising an error. -/
theorem slam_skip_amended (st : SlamState) (inp : SlamInput)
    (hinit : st.initialized = true)
    (hfew : (collectGood inp.flowStatus st.prevPointsFlat).length < 16) :
    SlamCore.processFrame st inp =
      .ok ({ st with prevPointsFlat := inp.detected }, false) := by
  unfold SlamCore.processFrame
  simp [hinit, hfew]

/-- Witness for the amended C8: an initialized state with 7 surviving
correspondences (14 flat entries) skips estimation, re-seeds, and returns
normally. -/
theorem slam_skip_amended_witness :
    (c8wState.initialized = true ∧
     (collectGood c8wInput.flowStatus c8wState.prevPointsFlat).length < 16) ∧
    SlamCore.processFrame c8wState c8wInput =
      .ok ({ c8wState with prevPointsFlat := c8wInput.detected }, false) := by
  have hfew : (collectGood c8wInput.flowStatus
      c8wState.prevPointsFlat).length < 16 := by
    show (14 : ℕ) < 16
    norm_num
  exact ⟨⟨rfl, hfew⟩, slam_skip_amended c8wState c8wInput rfl hfew⟩

end ARDemo
